import Mathlib

/-!
Verification of the minutes formatter and structured-data extractor of `lv.py`
(Lee Valley Golf Club minutes generator).

The embedding models Python strings as `List Char`.  The formatter
`generate_golf_club_minutes` and its helpers `get` / `format_items` are
translated from the source; `json_text_match` models the regex search
`re.search(r"```json\s*([\s\S]*?)\s*```|({[\s\S]*})", text, re.DOTALL)`
and `extractStructured` models the candidate-selection / parse block of the
app (lines 356-371 of the source).
-/

/-- Python strings, modelled as lists of characters. -/
abbrev Str := List Char

/-- The set of characters stripped by Python `str.strip()` and matched by the
regex class `\s` (Unicode whitespace). -/
def isPySpace (c : Char) : Bool :=
  c == ' ' || c == '\t' || c == '\n' || c == '\x0d' || c == '\x0b' || c == '\x0c' ||
  c == '\x1c' || c == '\x1d' || c == '\x1e' || c == '\x1f' || c == '\x85' || c == '\xa0' ||
  c == ' ' || (' ' ≤ c && c ≤ ' ') || c == ' ' || c == ' ' ||
  c == ' ' || c == ' ' || c == '　'

/-- Remove leading Python whitespace (left half of `str.strip()`). -/
def lstrip (s : Str) : Str := s.dropWhile isPySpace

/-- Remove trailing Python whitespace (right half of `str.strip()`). -/
def rstrip (s : Str) : Str := (s.reverse.dropWhile isPySpace).reverse

/-- Python `str.strip()`. -/
def pyStrip (s : Str) : Str := rstrip (lstrip s)

/-- A value stored under a list-shaped key of the structured record: the
upstream JSON may supply either a list of strings or a single string. -/
inductive ListVal where
  | ofStr (s : Str)
  | ofList (l : List Str)

/-- The structured record consumed by `generate_golf_club_minutes`: scalar
fields are optional strings, list fields optional `ListVal`s; `none` models a
key missing from the parsed JSON object. -/
structure StructuredRecord where
  titleOfMeeting : Option Str := none
  purposeOfMeeting : Option Str := none
  locationOfMeeting : Option Str := none
  meetingDateTime : Option Str := none
  nextMeetingDateTime : Option Str := none
  minutesPreparedBy : Option Str := none
  dateCirculated : Option Str := none
  circulation : Option Str := none
  attendees : Option ListVal := none
  apologies : Option ListVal := none
  training : Option ListVal := none
  healthAndSafety : Option ListVal := none
  finance : Option ListVal := none
  issuesRiskDiscipline : Option ListVal := none
  teams : Option ListVal := none
  projects : Option ListVal := none
  competitions : Option ListVal := none
  comments : Option ListVal := none
  anyOtherBusiness : Option ListVal := none
  captainsClosingComments : Option ListVal := none

/-- The wall clock passed to the two `now.strftime` calls of the formatter. -/
structure Now where
  day : Nat
  month : Nat
  year : Nat
  hour : Nat
  minute : Nat

/-- Zero-padded two-digit field of `strftime` (`%d`, `%m`, `%H`, `%M`). -/
def two (n : Nat) : Str := (if n < 10 then "0" ++ toString n else toString n).data

/-- `now.strftime("%d/%m/%Y")`. -/
def fmtDate (t : Now) : Str :=
  two t.day ++ ("/").data ++ two t.month ++ ("/").data ++ (toString t.year).data

/-- `now.strftime("%d/%m/%Y @ %H:%M")`. -/
def fmtDateTime (t : Now) : Str :=
  fmtDate t ++ (" @ ").data ++ two t.hour ++ (":").data ++ two t.minute

/-- Helper `get` of `generate_golf_club_minutes`:
`val if val and val != "Not mentioned" else default`.  A `None` (missing key)
or empty string is falsy; the sentinel comparison is case-sensitive. -/
def get (val : Option Str) (default : Str) : Str :=
  match val with
  | some s => if s ≠ [] ∧ s ≠ ("Not mentioned").data then s else default
  | none => default

/-- The bullet glyph of the source, the literal three characters `‚Ä¢`
(U+201A, U+00C4, U+00A2) followed by a space. -/
def bullet : Str := ("‚Ä¢ ").data

/-- Helper `format_items` of `generate_golf_club_minutes`: a non-empty list
renders every item as a bullet line; a non-blank non-sentinel string renders
as a single bullet line; everything else renders `‚Ä¢ Not mentioned`. -/
def format_items (val : Option ListVal) : Str :=
  match val with
  | some (.ofList l) =>
      if l ≠ [] then (l.map (fun item => bullet ++ item ++ ("\n").data)).flatten
      else bullet ++ ("Not mentioned\n").data
  | some (.ofStr s) =>
      if pyStrip s ≠ [] ∧ s ≠ ("Not mentioned").data then bullet ++ s ++ ("\n").data
      else bullet ++ ("Not mentioned\n").data
  | none => bullet ++ ("Not mentioned\n").data

/-- The f-string template of `generate_golf_club_minutes`, before the final
`.strip()`; a faithful transcription of the source lines 60-110. -/
def templ (r : StructuredRecord) (now : Now) : Str :=
  ("\nTitle of Meeting: ").data ++ get r.titleOfMeeting (("Lee Valley Mens Club Committee Meeting").data)
  ++ ("\nPurpose of Meeting: ").data ++ get r.purposeOfMeeting (("Not mentioned").data)
  ++ ("\nLocation of Meeting: ").data ++ get r.locationOfMeeting (("Lee Valley").data)
  ++ ("\nDate / Time of Meeting: ").data ++ get r.meetingDateTime (fmtDateTime now)
  ++ ("\nDate / Time of Next Meeting: ").data ++ get r.nextMeetingDateTime (("Not mentioned").data)
  ++ ("\nMinutes Prepared By: ").data ++ get r.minutesPreparedBy (("Not mentioned").data)
  ++ ("\nDate Circulated: ").data ++ get r.dateCirculated (fmtDate now)
  ++ ("\nCirculation: ").data ++ get r.circulation (("Not mentioned").data)
  ++ ("\n\n________________________________________\nATTENDEES:\n").data ++ format_items r.attendees
  ++ ("\n________________________________________\nAPOLOGIES:\n").data ++ format_items r.apologies
  ++ ("\n________________________________________\n\nMEETING MINUTES & ACTIONS\n________________________________________\n\n1. Training (First Aid, Programmes, etc.)\n").data ++ format_items r.training
  ++ ("\n________________________________________\n2. Health and Safety\n").data ++ format_items r.healthAndSafety
  ++ ("\n________________________________________\n3. Finance (Status, Projections)\n").data ++ format_items r.finance
  ++ ("\n________________________________________\n4. Issues, Risk, Discipline\n").data ++ format_items r.issuesRiskDiscipline
  ++ ("\n________________________________________\n5. Teams (Purcell, Bruen, etc.)\n").data ++ format_items r.teams
  ++ ("\n________________________________________\n6. Projects (Defib, Simulator, 5 Year Vision)\n").data ++ format_items r.projects
  ++ ("\n________________________________________\n7. Competitions (Weekly, Matchplays)\n").data ++ format_items r.competitions
  ++ ("\n________________________________________\n8. Comments\n").data ++ format_items r.comments
  ++ ("\n________________________________________\n9. Any Other Business (AOB)\n").data ++ format_items r.anyOtherBusiness
  ++ ("\n________________________________________\n10. Captain\x27s Closing Comments\n").data ++ format_items r.captainsClosingComments
  ++ ("\n").data

/-- `generate_golf_club_minutes(structured)`, with the wall clock `now` made
an explicit parameter: the filled template followed by `.strip()`. -/
def generate_golf_club_minutes (r : StructuredRecord) (now : Now) : Str :=
  pyStrip (templ r now)

/-- A fixed concrete clock used by concrete evaluations. -/
def now0 : Now := ⟨1, 2, 2025, 3, 4⟩

/-- A record with every key missing. -/
def emptyRec : StructuredRecord := {}

/-- The document between the stripped leading newline and the final stripped
tail, as the list of its template segments (literal pieces alternating with
interpolated field values), in source order. -/
def bodySegs (r : StructuredRecord) (now : Now) : List Str :=
  [ ("Title of Meeting: ").data
  , get r.titleOfMeeting (("Lee Valley Mens Club Committee Meeting").data)
  , ("\nPurpose of Meeting: ").data
  , get r.purposeOfMeeting (("Not mentioned").data)
  , ("\nLocation of Meeting: ").data
  , get r.locationOfMeeting (("Lee Valley").data)
  , ("\nDate / Time of Meeting: ").data
  , get r.meetingDateTime (fmtDateTime now)
  , ("\nDate / Time of Next Meeting: ").data
  , get r.nextMeetingDateTime (("Not mentioned").data)
  , ("\nMinutes Prepared By: ").data
  , get r.minutesPreparedBy (("Not mentioned").data)
  , ("\nDate Circulated: ").data
  , get r.dateCirculated (fmtDate now)
  , ("\nCirculation: ").data
  , get r.circulation (("Not mentioned").data)
  , ("\n\n________________________________________\nATTENDEES:\n").data
  , format_items r.attendees
  , ("\n________________________________________\nAPOLOGIES:\n").data
  , format_items r.apologies
  , ("\n________________________________________\n\nMEETING MINUTES & ACTIONS\n________________________________________\n\n1. Training (First Aid, Programmes, etc.)\n").data
  , format_items r.training
  , ("\n________________________________________\n2. Health and Safety\n").data
  , format_items r.healthAndSafety
  , ("\n________________________________________\n3. Finance (Status, Projections)\n").data
  , format_items r.finance
  , ("\n________________________________________\n4. Issues, Risk, Discipline\n").data
  , format_items r.issuesRiskDiscipline
  , ("\n________________________________________\n5. Teams (Purcell, Bruen, etc.)\n").data
  , format_items r.teams
  , ("\n________________________________________\n6. Projects (Defib, Simulator, 5 Year Vision)\n").data
  , format_items r.projects
  , ("\n________________________________________\n7. Competitions (Weekly, Matchplays)\n").data
  , format_items r.competitions
  , ("\n________________________________________\n8. Comments\n").data
  , format_items r.comments
  , ("\n________________________________________\n9. Any Other Business (AOB)\n").data
  , format_items r.anyOtherBusiness
  , ("\n________________________________________\n10. Captain\x27s Closing Comments\n").data ]

/-- A record whose training list is the C1 example list
`["Fix the mower", "Not mentioned", ""]`. -/
def rec1 : StructuredRecord :=
  { training := some (.ofList [("Fix the mower").data, ("Not mentioned").data, ("").data]) }

/-- A record whose purpose is the case-variant sentinel `"NOT MENTIONED"`. -/
def rec4 : StructuredRecord := { purposeOfMeeting := some (("NOT MENTIONED").data) }

/-- A record with a present (non-empty, non-sentinel) meeting title. -/
def rec5 : StructuredRecord := { titleOfMeeting := some (("March Committee Catch-up").data) }

/-- A record in which both wall-clock-defaulted fields are present. -/
def rec9 : StructuredRecord :=
  { meetingDateTime := some (("12/12/2024 @ 10:00").data)
  , dateCirculated := some (("13/12/2024").data) }

/-- A second concrete clock, distinct from `now0`. -/
def now1 : Now := ⟨5, 6, 2030, 7, 8⟩

/-- The ten fixed numbered section labels of the template, in order. -/
def sectionLabels : List Str :=
  [ ("1. Training (First Aid, Programmes, etc.)").data
  , ("2. Health and Safety").data
  , ("3. Finance (Status, Projections)").data
  , ("4. Issues, Risk, Discipline").data
  , ("5. Teams (Purcell, Bruen, etc.)").data
  , ("6. Projects (Defib, Simulator, 5 Year Vision)").data
  , ("7. Competitions (Weekly, Matchplays)").data
  , ("8. Comments").data
  , ("9. Any Other Business (AOB)").data
  , ("10. Captain\x27s Closing Comments").data ]

/-- Is a scalar value "present" in the sense of `get` keeping it: a string
that is non-empty and not the exact sentinel? -/
def present : Option Str → Bool
  | some s => (!(s == [])) && (!(s == ("Not mentioned").data))
  | none => false

/-- Boolean string-prefix test (used by the regex model and, via `hasRun`,
for efficient substring checks). -/
def startsWith : Str → Str → Bool
  | [], _ => true
  | _ :: _, [] => false
  | p :: ps, c :: cs => p == c && startsWith ps cs

/-- Tail-recursive substring scan: does `pat` occur contiguously in the
second argument? -/
def hasRun (pat : Str) : Str → Bool
  | [] => startsWith pat []
  | c :: cs => startsWith pat (c :: cs) || hasRun pat cs

/-- Index of the first occurrence of a closing fence `` ``` `` in the string. -/
def findFence : Str → Option Nat
  | [] => none
  | c :: cs =>
      if startsWith (("```").data) (c :: cs) then some 0
      else (findFence cs).map (· + 1)

/-- Branch `A` of the regex at the current position:
`` ```json\s*([\s\S]*?)\s*``` `` under `re.DOTALL`.  It matches when the text
starts with `` ```json `` here and some closing fence follows; the greedy
`\s*`s and the lazy group make `group(1)` the whitespace-stripped interior up
to the first closing fence. -/
def tryFence (cs : Str) : Option Str :=
  if startsWith (("```json").data) cs then
    match findFence (cs.drop 7) with
    | some t => some (pyStrip ((cs.drop 7).take t))
    | none => none
  else none

/-- Index of the last `\x7d` in the string. -/
def lastBrace : Str → Option Nat
  | [] => none
  | c :: cs =>
      match lastBrace cs with
      | some j => some (j + 1)
      | none => if c == '\x7d' then some 0 else none

/-- Branch `B` of the regex at the current position: `({[\s\S]*})`, a greedy
capture from an opening brace here to the last closing brace anywhere later
in the text. -/
def tryBrace (cs : Str) : Option Str :=
  match cs with
  | '\x7b' :: rest =>
      match lastBrace rest with
      | some j => some ('\x7b' :: rest.take (j + 1))
      | none => none
  | _ => none

/-- Model of the source's
`re.search(r"```json\s*([\s\S]*?)\s*```|({[\s\S]*})", response.text, re.DOTALL)`:
scan positions left to right; at each position the fenced-json branch is
preferred over the bare-brace branch; the result carries the two capture
groups `(group(1), group(2))`. -/
def json_text_match : Str → Option (Option Str × Option Str)
  | [] => none
  | c :: cs =>
      match tryFence (c :: cs) with
      | some g1 => some (some g1, none)
      | none =>
          match tryBrace (c :: cs) with
          | some g2 => some (none, some g2)
          | none => json_text_match cs

/-- A generic parsed JSON value (the result of `json.loads`); numbers keep
their source lexeme. -/
inductive Json where
  | null
  | bool (b : Bool)
  | num (lit : Str)
  | str (s : Str)
  | arr (elems : List Json)
  | obj (members : List (Str × Json))

/-- JSON inter-element whitespace (space, tab, newline, carriage return). -/
def jsonWs (c : Char) : Bool := c == ' ' || c == '\t' || c == '\n' || c == '\x0d'

/-- Skip JSON inter-element whitespace. -/
def skipJsonWs (cs : Str) : Str := cs.dropWhile jsonWs

/-- Value of a hexadecimal digit. -/
def hexVal (c : Char) : Option Nat :=
  if '0' ≤ c ∧ c ≤ '9' then some (c.toNat - 48)
  else if 'a' ≤ c ∧ c ≤ 'f' then some (c.toNat - 87)
  else if 'A' ≤ c ∧ c ≤ 'F' then some (c.toNat - 55)
  else none

/-- Body of a JSON string after the opening quote: the decoded characters and
the remainder after the closing quote.  `\uXXXX` escapes decode to the scalar
value (surrogate pairing is not modelled); unescaped control characters are
rejected as in strict-mode `json.loads`. -/
def parseStringBody : Str → Except Str (Str × Str)
  | [] => .error (("Unterminated string").data)
  | '"' :: rest => .ok ([], rest)
  | '\\' :: rest =>
      match rest with
      | '"' :: r => (parseStringBody r).map (fun p => ('"' :: p.1, p.2))
      | '\\' :: r => (parseStringBody r).map (fun p => ('\\' :: p.1, p.2))
      | '/' :: r => (parseStringBody r).map (fun p => ('/' :: p.1, p.2))
      | 'b' :: r => (parseStringBody r).map (fun p => ('\x08' :: p.1, p.2))
      | 'f' :: r => (parseStringBody r).map (fun p => ('\x0c' :: p.1, p.2))
      | 'n' :: r => (parseStringBody r).map (fun p => ('\n' :: p.1, p.2))
      | 'r' :: r => (parseStringBody r).map (fun p => ('\x0d' :: p.1, p.2))
      | 't' :: r => (parseStringBody r).map (fun p => ('\t' :: p.1, p.2))
      | 'u' :: h1 :: h2 :: h3 :: h4 :: r =>
          match hexVal h1, hexVal h2, hexVal h3, hexVal h4 with
          | some a, some b, some c, some d =>
              (parseStringBody r).map (fun p =>
                (Char.ofNat (((a * 16 + b) * 16 + c) * 16 + d) :: p.1, p.2))
          | _, _, _, _ => .error (("Invalid \\uXXXX escape").data)
      | _ => .error (("Invalid \\escape").data)
  | c :: rest =>
      if c.toNat < 32 then .error (("Invalid control character").data)
      else (parseStringBody rest).map (fun p => (c :: p.1, p.2))

/-- The decimal digits at the head of the string, and the remainder. -/
def spanDigits (cs : Str) : Str × Str := (cs.takeWhile (·.isDigit), cs.dropWhile (·.isDigit))

/-- The integer part `0|[1-9][0-9]*` of a JSON number. -/
def parseIntPart : Str → Option (Str × Str)
  | '0' :: r => some (['0'], r)
  | cs =>
      match spanDigits cs with
      | ([], _) => none
      | (ds, rest) => some (ds, rest)

/-- The optional fraction part `(\.[0-9]+)?` of a JSON number; yields `[]` and
the unchanged input when absent. -/
def parseFracPart : Str → Str × Str
  | '.' :: r =>
      match spanDigits r with
      | ([], _) => ([], '.' :: r)
      | (ds, rest) => ('.' :: ds, rest)
  | cs => ([], cs)

/-- The optional exponent part `([eE][-+]?[0-9]+)?` of a JSON number. -/
def parseExpPart : Str → Str × Str
  | c :: r =>
      if c == 'e' || c == 'E' then
        match r with
        | s :: r2 =>
            if s == '+' || s == '-' then
              match spanDigits r2 with
              | ([], _) => ([], c :: r)
              | (ds, rest) => (c :: s :: ds, rest)
            else
              match spanDigits r with
              | ([], _) => ([], c :: r)
              | (ds, rest) => (c :: ds, rest)
        | [] => ([], [c])
      else ([], c :: r)
  | [] => ([], [])

/-- A JSON number literal `-?(0|[1-9][0-9]*)(\.[0-9]+)?([eE][-+]?[0-9]+)?` at
the head of the string: the lexeme and the remainder. -/
def parseNumberLit (cs : Str) : Option (Str × Str) :=
  match cs with
  | '-' :: r =>
      match parseIntPart r with
      | none => none
      | some (ip, rest1) =>
          let fr := parseFracPart rest1
          let ex := parseExpPart fr.2
          some ('-' :: (ip ++ fr.1 ++ ex.1), ex.2)
  | _ =>
      match parseIntPart cs with
      | none => none
      | some (ip, rest1) =>
          let fr := parseFracPart rest1
          let ex := parseExpPart fr.2
          some (ip ++ fr.1 ++ ex.1, ex.2)

mutual

/-- One JSON value at the head of the (whitespace-skipped) string.  The fuel
bounds the recursion; the top-level entry point supplies more fuel than any
input of that length can consume. -/
def parseValue : Nat → Str → Except Str (Json × Str)
  | 0, _ => .error (("Recursion limit").data)
  | fuel + 1, cs =>
      match cs with
      | [] => .error (("Expecting value").data)
      | '"' :: rest => (parseStringBody rest).map (fun p => (.str p.1, p.2))
      | '\x7b' :: rest =>
          match skipJsonWs rest with
          | '\x7d' :: r2 => .ok (.obj [], r2)
          | cs2 => (parseMembers fuel cs2).map (fun p => (.obj p.1, p.2))
      | '[' :: rest =>
          match skipJsonWs rest with
          | ']' :: r2 => .ok (.arr [], r2)
          | cs2 => (parseElems fuel cs2).map (fun p => (.arr p.1, p.2))
      | _ =>
          if startsWith (("true").data) cs then .ok (.bool true, cs.drop 4)
          else if startsWith (("false").data) cs then .ok (.bool false, cs.drop 5)
          else if startsWith (("null").data) cs then .ok (.null, cs.drop 4)
          else if startsWith (("NaN").data) cs then .ok (.num (("NaN").data), cs.drop 3)
          else if startsWith (("Infinity").data) cs then .ok (.num (("Infinity").data), cs.drop 8)
          else if startsWith (("-Infinity").data) cs then .ok (.num (("-Infinity").data), cs.drop 9)
          else
            match parseNumberLit cs with
            | some (lit, rest) => .ok (.num lit, rest)
            | none => .error (("Expecting value").data)

/-- The members of a JSON object, starting at the first key (not at `{`),
ending after the closing brace. -/
def parseMembers : Nat → Str → Except Str (List (Str × Json) × Str)
  | 0, _ => .error (("Recursion limit").data)
  | fuel + 1, cs =>
      match cs with
      | '"' :: rest =>
          match parseStringBody rest with
          | .error e => .error e
          | .ok (key, r1) =>
              match skipJsonWs r1 with
              | ':' :: r2 =>
                  match parseValue fuel (skipJsonWs r2) with
                  | .error e => .error e
                  | .ok (v, r3) =>
                      match skipJsonWs r3 with
                      | ',' :: r4 =>
                          match parseMembers fuel (skipJsonWs r4) with
                          | .error e => .error e
                          | .ok (ms, r5) => .ok ((key, v) :: ms, r5)
                      | '\x7d' :: r4 => .ok ([(key, v)], r4)
                      | _ => .error (("Expecting , delimiter").data)
              | _ => .error (("Expecting : delimiter").data)
      | _ => .error (("Expecting property name enclosed in double quotes").data)

/-- The elements of a JSON array, starting at the first element (not at `[`),
ending after the closing bracket. -/
def parseElems : Nat → Str → Except Str (List Json × Str)
  | 0, _ => .error (("Recursion limit").data)
  | fuel + 1, cs =>
      match parseValue fuel cs with
      | .error e => .error e
      | .ok (v, r1) =>
          match skipJsonWs r1 with
          | ',' :: r2 =>
              match parseElems fuel (skipJsonWs r2) with
              | .error e => .error e
              | .ok (vs, r3) => .ok (v :: vs, r3)
          | ']' :: r2 => .ok ([v], r2)
          | _ => .error (("Expecting , delimiter").data)

end

/-- `json.loads`: one JSON document with optional surrounding whitespace and
no trailing data. -/
def json_loads (cs : Str) : Except Str Json :=
  match parseValue (2 * cs.length + 8) (skipJsonWs cs) with
  | .error e => .error e
  | .ok (v, rest) =>
      if skipJsonWs rest = [] then .ok v
      else .error (("Extra data").data)

/-- Outcome of the structured-extraction block (source lines 356-371): a
parsed record, the no-JSON-found error path that retains the raw text, the
malformed path that carries the parse error and the exact candidate shown to
the user, or the unhandled `NoneType.strip` exception. -/
inductive Outcome where
  | success (record : Json)
  | noStructuredData (raw : Str)
  | malformed (err : Str) (candidate : Str)
  | pyNoneError

/-- Python's `match.group(1) or match.group(2)`: the first truthy group,
where `None` and the empty string are falsy. -/
def orGroup (g1 g2 : Option Str) : Option Str :=
  match g1 with
  | some s => if s ≠ [] then some s else g2
  | none => g2

/-- The extraction block: locate a candidate with `json_text_match`, take
`group(1) or group(2)`, strip and parse it.  The regex failing entirely is
the "no valid JSON found" error path; a parse failure is the malformed path,
displaying the stripped candidate; a falsy `group(1)` with no `group(2)`
makes `json_str` `None` and `json_str.strip()` raises. -/
def extractStructured (text : Str) : Outcome :=
  match json_text_match text with
  | none => .noStructuredData text
  | some (g1, g2) =>
      match orGroup g1 g2 with
      | none => .pyNoneError
      | some s =>
          match json_loads (pyStrip s) with
          | .ok v => .success v
          | .error e => .malformed e (pyStrip s)

/-- The candidate substring carried by a malformed outcome. -/
def candidateOf : Outcome → Option Str
  | .malformed _ c => some c
  | _ => none

/-- Does the string start with a Python whitespace character? -/
def startsWs : Str → Bool
  | [] => false
  | c :: _ => isPySpace c

/-- Does the string end with a Python whitespace character? -/
def endsWs (s : Str) : Bool := startsWs s.reverse

/-- The head of a list after `dropWhile p` falsifies `p`. -/
theorem dropWhile_head_false {α} (p : α → Bool) :
    ∀ (l : List α) (c : α) (t : List α), List.dropWhile p l = c :: t → p c = false := by
  intro l
  induction l with
  | nil => intro c t h; simp at h
  | cons a l ih =>
      intro c t h
      rw [List.dropWhile_cons] at h
      split at h
      · exact ih _ _ h
      · next hp => cases h; simpa using hp

/-- `dropWhile p` keeps any element falsifying `p`, so the result is nonempty. -/
theorem dropWhile_ne_nil_of_exists {α} (p : α → Bool) (l : List α)
    (h : ∃ c ∈ l, p c = false) : List.dropWhile p l ≠ [] := by
  induction l with
  | nil => simp at h
  | cons a l ih =>
      rw [List.dropWhile_cons]
      split
      · next hp =>
          apply ih
          rcases h with ⟨c, hc, hpc⟩
          rcases List.mem_cons.mp hc with rfl | hc
          · rw [hp] at hpc; cases hpc
          · exact ⟨c, hc, hpc⟩
      · simp

/-- Left strip walks through an append while the left part is not all blank. -/
theorem lstrip_append (a b : Str) (h : lstrip a ≠ []) : lstrip (a ++ b) = lstrip a ++ b := by
  unfold lstrip at h ⊢
  rw [List.dropWhile_append, if_neg]
  simpa [List.isEmpty_iff] using h

/-- Right strip is unaffected by a left part when the right part holds some
non-whitespace character. -/
theorem rstrip_append_nonws (a b : Str) (h : ∃ c ∈ b, isPySpace c = false) :
    rstrip (a ++ b) = a ++ rstrip b := by
  unfold rstrip
  rw [List.reverse_append, List.dropWhile_append, if_neg]
  · simp
  · rcases h with ⟨c, hc, hpc⟩
    simp only [List.isEmpty_iff]
    exact dropWhile_ne_nil_of_exists _ _ ⟨c, by simpa using hc, hpc⟩

/-- Right strip swallows an all-whitespace right part. -/
theorem rstrip_append_ws (a b : Str) (h : ∀ c ∈ b, isPySpace c = true) :
    rstrip (a ++ b) = rstrip a := by
  unfold rstrip
  rw [List.reverse_append, List.dropWhile_append, if_pos]
  simp only [List.isEmpty_iff, List.dropWhile_eq_nil_iff]
  intro x hx
  exact h x (by simpa using hx)

/-- Every rendering of `format_items` starts with the bullet glyph. -/
theorem format_items_bullet_mem (v : Option ListVal) : '‚' ∈ format_items v := by
  have hb : '‚' ∈ bullet := by decide
  rcases v with _ | (s | l)
  · exact List.mem_append_left _ hb
  · show '‚' ∈ (if pyStrip s ≠ [] ∧ s ≠ ("Not mentioned").data then
        bullet ++ s ++ ("\n").data else bullet ++ ("Not mentioned\n").data)
    split
    · exact List.mem_append_left _ (List.mem_append_left _ hb)
    · exact List.mem_append_left _ hb
  · show '‚' ∈ (if l ≠ [] then
        (l.map (fun item => bullet ++ item ++ ("\n").data)).flatten
        else bullet ++ ("Not mentioned\n").data)
    split
    · next hne =>
        rcases l with _ | ⟨x, xs⟩
        · simp at hne
        · simp only [List.map_cons, List.flatten_cons]
          exact List.mem_append_left _ (List.mem_append_left _ (List.mem_append_left _ hb))
    · exact List.mem_append_left _ hb

/-- Every rendering of `format_items` holds a non-whitespace character. -/
theorem format_items_nonws (v : Option ListVal) :
    ∃ c ∈ format_items v, isPySpace c = false :=
  ⟨'‚', format_items_bullet_mem v, by decide⟩

set_option maxRecDepth 8000 in
set_option maxHeartbeats 1000000 in
/-- The generated minutes decompose as the flattened body segments followed by
the right-stripped captain-comments body: the final `.strip()` only removes
the template's leading newline and trailing whitespace of the last section. -/
theorem gen_decomp (r : StructuredRecord) (now : Now) :
    generate_golf_club_minutes r now =
      (bodySegs r now).flatten ++ rstrip (format_items r.captainsClosingComments) := by
  unfold generate_golf_club_minutes pyStrip templ
  simp only [List.append_assoc]
  rw [lstrip_append _ _ (by decide)]
  rw [show lstrip (("\nTitle of Meeting: ").data) = ("Title of Meeting: ").data from by decide]
  simp only [← List.append_assoc]
  rw [rstrip_append_ws _ _ (by decide)]
  rw [rstrip_append_nonws _ _ (format_items_nonws _)]
  simp [bodySegs, List.append_assoc]

/-- A run of `j` consecutive segments starting at position `i` of a segment
list is an infix of the flattened list. -/
theorem flat_run (xs : List Str) (i j : Nat) :
    (((xs.drop i).take j).flatten) <:+: xs.flatten := by
  refine ⟨(xs.take i).flatten, ((xs.drop i).drop j).flatten, ?_⟩
  rw [← List.flatten_append, ← List.flatten_append]
  congr 1
  rw [List.append_assoc, List.take_append_drop, List.take_append_drop]

/-- The first `j` segments of a segment list are a prefix of the flattened
list followed by anything. -/
theorem flat_run_head (xs : List Str) (j : Nat) (tail : Str) :
    ((xs.take j).flatten) <+: xs.flatten ++ tail := by
  refine ⟨(xs.drop j).flatten ++ tail, ?_⟩
  rw [← List.append_assoc, ← List.flatten_append, List.take_append_drop]

/-- An infix of `a` is an infix of `a ++ b`. -/
theorem infix_extendR {l a : Str} (b : Str) (h : l <:+: a) : l <:+: a ++ b := by
  rcases h with ⟨s, t, hst⟩
  exact ⟨s, t ++ b, by rw [← hst]; simp [List.append_assoc]⟩

/-- `startsWith` decides the propositional prefix relation. -/
theorem startsWith_iff (p : Str) : ∀ s : Str, startsWith p s = true ↔ p <+: s := by
  induction p with
  | nil =>
      intro s
      constructor
      · intro _; exact ⟨s, rfl⟩
      · intro _; rfl
  | cons a p ih =>
      intro s
      cases s with
      | nil =>
          constructor
          · intro h; cases h
          · rintro ⟨t, ht⟩; cases ht
      | cons b s =>
          rw [show startsWith (a :: p) (b :: s) = ((a == b) && startsWith p s) from rfl]
          rw [Bool.and_eq_true, beq_iff_eq, ih]
          constructor
          · rintro ⟨rfl, t, rfl⟩; exact ⟨t, rfl⟩
          · rintro ⟨t, ht⟩
            injection ht with h1 h2
            exact ⟨h1, t, h2⟩

/-- `hasRun` decides the propositional contiguous-substring relation. -/
theorem hasRun_iff (p : Str) : ∀ s : Str, hasRun p s = true ↔ p <:+: s := by
  intro s
  induction s with
  | nil =>
      rw [show hasRun p [] = startsWith p [] from rfl, startsWith_iff]
      constructor
      · rintro ⟨t, ht⟩; exact ⟨[], t, by simpa using ht⟩
      · rintro ⟨u, t, ht⟩
        simp only [List.append_eq_nil] at ht
        exact ⟨t, by simp [ht.1.2, ht.2]⟩
  | cons c cs ih =>
      rw [show hasRun p (c :: cs) = (startsWith p (c :: cs) || hasRun p cs) from rfl]
      rw [Bool.or_eq_true, startsWith_iff, ih]
      constructor
      · rintro (⟨t, ht⟩ | ⟨u, t, ht⟩)
        · exact ⟨[], t, by simpa using ht⟩
        · refine ⟨c :: u, t, ?_⟩
          simp only [List.cons_append]
          rw [ht]
      · rintro ⟨u, t, ht⟩
        cases u with
        | nil => exact Or.inl ⟨t, by simpa using ht⟩
        | cons x u =>
            simp only [List.cons_append] at ht
            injection ht with h1 h2
            exact Or.inr ⟨u, t, h2⟩

-- sanity checks (concrete evaluation of the embedding)
example : get none (("Lee Valley").data) = ("Lee Valley").data := by decide
example : get (some (("x").data)) (("d").data) = ("x").data := by decide
example : get (some (("Not mentioned").data)) (("d").data) = ("d").data := by decide
example : get (some (("NOT MENTIONED").data)) (("d").data) = ("NOT MENTIONED").data := by decide
example : format_items none = ("‚Ä¢ Not mentioned\n").data := by decide
example : fmtDateTime now0 = ("01/02/2025 @ 03:04").data := by decide
example : ([2] : List Nat) <:+: [1, 2, 3] := ⟨[1], [3], rfl⟩
example : (("b").data) <:+: (("ab").data) := by decide

set_option maxRecDepth 100000 in
set_option maxHeartbeats 2000000 in
/-- C1: the claim asserts that list fields are filtered of empty, blank and
sentinel entries, so that `["Fix the mower", "Not mentioned", ""]` renders
exactly one bullet line.  In the code `format_items` renders every entry of a
non-empty list unfiltered: that list renders three bullet lines (including a
`‚Ä¢ Not mentioned` and a bare `‚Ä¢ `), in `format_items` and in the
generated document alike. -/
theorem c1_counterexample :
    format_items (some (.ofList [("Fix the mower").data, ("Not mentioned").data, ("").data]))
        = ("‚Ä¢ Fix the mower\n‚Ä¢ Not mentioned\n‚Ä¢ \n").data
    ∧ (format_items (some (.ofList [("Fix the mower").data, ("Not mentioned").data, ("").data]))).count '‚' = 3
    ∧ (("1. Training (First Aid, Programmes, etc.)\n‚Ä¢ Fix the mower\n‚Ä¢ Not mentioned\n‚Ä¢ \n").data
        <:+: generate_golf_club_minutes rec1 now0) := by
  refine ⟨by decide, by decide, ?_⟩
  rw [← hasRun_iff]
  decide

/-- C1 (amended): `format_items` applies no filtering to a non-empty list
field: every entry — including empty, blank and sentinel entries — renders as
its own bullet line, in input order, and the document's training section
shows them all unfiltered. -/
theorem c1_amended (r : StructuredRecord) (now : Now) (l : List Str)
    (h : r.training = some (.ofList l)) (hne : l ≠ []) :
    format_items r.training = (l.map (fun item => bullet ++ item ++ ("\n").data)).flatten
    ∧ (("\n________________________________________\n\nMEETING MINUTES & ACTIONS\n________________________________________\n\n1. Training (First Aid, Programmes, etc.)\n").data
        ++ (l.map (fun item => bullet ++ item ++ ("\n").data)).flatten
        ++ ("\n________________________________________\n2. Health and Safety\n").data)
      <:+: generate_golf_club_minutes r now := by
  have hfi : format_items r.training
      = (l.map (fun item => bullet ++ item ++ ("\n").data)).flatten := by
    rw [h]; simp only [format_items]; rw [if_pos hne]
  refine ⟨hfi, ?_⟩
  rw [gen_decomp]
  apply infix_extendR
  have hrun := flat_run (bodySegs r now) 20 3
  rw [show ((bodySegs r now).drop 20).take 3
      = [("\n________________________________________\n\nMEETING MINUTES & ACTIONS\n________________________________________\n\n1. Training (First Aid, Programmes, etc.)\n").data
        , format_items r.training
        , ("\n________________________________________\n2. Health and Safety\n").data] from rfl] at hrun
  have e : ([("\n________________________________________\n\nMEETING MINUTES & ACTIONS\n________________________________________\n\n1. Training (First Aid, Programmes, etc.)\n").data
        , format_items r.training
        , ("\n________________________________________\n2. Health and Safety\n").data] : List Str).flatten
      = (("\n________________________________________\n\nMEETING MINUTES & ACTIONS\n________________________________________\n\n1. Training (First Aid, Programmes, etc.)\n").data
        ++ (l.map (fun item => bullet ++ item ++ ("\n").data)).flatten
        ++ ("\n________________________________________\n2. Health and Safety\n").data) := by
    rw [hfi]; simp [List.append_assoc]
  rw [e] at hrun
  exact hrun

/-- C1 witness: the amended theorem applied to the concrete record `rec1`,
whose training list is `["Fix the mower", "Not mentioned", ""]`. -/
theorem c1_witness :
    format_items rec1.training
        = (([("Fix the mower").data, ("Not mentioned").data, ("").data]).map
            (fun item => bullet ++ item ++ ("\n").data)).flatten
    ∧ (("\n________________________________________\n\nMEETING MINUTES & ACTIONS\n________________________________________\n\n1. Training (First Aid, Programmes, etc.)\n").data
        ++ (([("Fix the mower").data, ("Not mentioned").data, ("").data]).map
            (fun item => bullet ++ item ++ ("\n").data)).flatten
        ++ ("\n________________________________________\n2. Health and Safety\n").data)
      <:+: generate_golf_club_minutes rec1 now0 :=
  c1_amended rec1 now0 [("Fix the mower").data, ("Not mentioned").data, ("").data] rfl (by decide)

set_option maxRecDepth 100000 in
set_option maxHeartbeats 2000000 in
/-- C2: the claim asserts that an empty or absent list renders an empty body,
except attendees/apologies which render a "None listed" bullet.  In the code
every absent or empty list field renders the bullet line `‚Ä¢ Not mentioned`:
the empty record's document contains "None listed" nowhere, and its finance
section body is the "Not mentioned" bullet rather than an empty string. -/
theorem c2_counterexample :
    ¬ (("None listed").data <:+: generate_golf_club_minutes emptyRec now0)
    ∧ (("3. Finance (Status, Projections)\n‚Ä¢ Not mentioned\n").data
        <:+: generate_golf_club_minutes emptyRec now0)
    ∧ format_items none = ("‚Ä¢ Not mentioned\n").data := by
  refine ⟨?_, ?_, by decide⟩
  · rw [← hasRun_iff]; decide
  · rw [← hasRun_iff]; decide

/-- C2 (amended): when a list field is absent, an empty list, a blank string
or the sentinel string, `format_items` renders the literal bullet line
`‚Ä¢ Not mentioned` — uniformly for every section, attendees, apologies and
finance included; no section ever renders "None listed" or an empty body. -/
theorem c2_amended (r : StructuredRecord) (now : Now)
    (ha : r.attendees = none) (hf : r.finance = none) :
    format_items none = bullet ++ ("Not mentioned\n").data
    ∧ format_items (some (.ofList [])) = bullet ++ ("Not mentioned\n").data
    ∧ (∀ s, pyStrip s = [] → format_items (some (.ofStr s)) = bullet ++ ("Not mentioned\n").data)
    ∧ format_items (some (.ofStr (("Not mentioned").data))) = bullet ++ ("Not mentioned\n").data
    ∧ (("\n\n________________________________________\nATTENDEES:\n‚Ä¢ Not mentioned\n").data
        <:+: generate_golf_club_minutes r now)
    ∧ (("\n________________________________________\n3. Finance (Status, Projections)\n‚Ä¢ Not mentioned\n").data
        <:+: generate_golf_club_minutes r now) := by
  refine ⟨rfl, by decide, ?_, by decide, ?_, ?_⟩
  · intro s hs
    simp only [format_items]
    rw [if_neg (by simp [hs])]
  · rw [gen_decomp]
    apply infix_extendR
    have hrun := flat_run (bodySegs r now) 16 2
    rw [show ((bodySegs r now).drop 16).take 2
        = [("\n\n________________________________________\nATTENDEES:\n").data
          , format_items r.attendees] from rfl] at hrun
    rw [ha] at hrun
    rw [show ([("\n\n________________________________________\nATTENDEES:\n").data
          , format_items none] : List Str).flatten
        = ("\n\n________________________________________\nATTENDEES:\n‚Ä¢ Not mentioned\n").data
        from by decide] at hrun
    exact hrun
  · rw [gen_decomp]
    apply infix_extendR
    have hrun := flat_run (bodySegs r now) 24 2
    rw [show ((bodySegs r now).drop 24).take 2
        = [("\n________________________________________\n3. Finance (Status, Projections)\n").data
          , format_items r.finance] from rfl] at hrun
    rw [hf] at hrun
    rw [show ([("\n________________________________________\n3. Finance (Status, Projections)\n").data
          , format_items none] : List Str).flatten
        = ("\n________________________________________\n3. Finance (Status, Projections)\n‚Ä¢ Not mentioned\n").data
        from by decide] at hrun
    exact hrun

/-- C2 witness: the amended theorem applied to the empty record with the
concrete clock, and its blank-string case applied to `" "`. -/
theorem c2_witness :
    format_items (some (.ofStr ((" ").data))) = bullet ++ ("Not mentioned\n").data
    ∧ (("\n\n________________________________________\nATTENDEES:\n‚Ä¢ Not mentioned\n").data
        <:+: generate_golf_club_minutes emptyRec now0)
    ∧ (("\n________________________________________\n3. Finance (Status, Projections)\n‚Ä¢ Not mentioned\n").data
        <:+: generate_golf_club_minutes emptyRec now0) := by
  have h := c2_amended emptyRec now0 rfl rfl
  exact ⟨h.2.2.1 ((" ").data) (by decide), h.2.2.2.2.1, h.2.2.2.2.2⟩

set_option maxRecDepth 100000 in
set_option maxHeartbeats 2000000 in
/-- C3: the claim asserts that an absent scalar field (purpose, next-meeting
time, preparer, circulation) renders as the empty string.  In the code `get`
defaults these fields to the literal `"Not mentioned"`: the empty record's
document reads "Purpose of Meeting: Not mentioned", not an empty value. -/
theorem c3_counterexample :
    (("Purpose of Meeting: Not mentioned\nLocation of Meeting: ").data
        <:+: generate_golf_club_minutes emptyRec now0)
    ∧ ¬ (("Purpose of Meeting: \nLocation of Meeting: ").data
        <:+: generate_golf_club_minutes emptyRec now0) := by
  refine ⟨?_, ?_⟩
  · rw [← hasRun_iff]; decide
  · rw [← hasRun_iff]; decide

/-- C3 (amended): when a scalar field among purpose, next-meeting date/time,
minutes-prepared-by and circulation is absent (missing, empty, or the exact
sentinel), the formatter renders the placeholder text `Not mentioned` as the
field's value, not an empty string. -/
theorem c3_amended (r : StructuredRecord) (now : Now) :
    ((r.purposeOfMeeting = none ∨ r.purposeOfMeeting = some [] ∨
        r.purposeOfMeeting = some (("Not mentioned").data)) →
      ("\nPurpose of Meeting: Not mentioned\nLocation of Meeting: ").data
        <:+: generate_golf_club_minutes r now)
    ∧ ((r.nextMeetingDateTime = none ∨ r.nextMeetingDateTime = some [] ∨
        r.nextMeetingDateTime = some (("Not mentioned").data)) →
      ("\nDate / Time of Next Meeting: Not mentioned\nMinutes Prepared By: ").data
        <:+: generate_golf_club_minutes r now)
    ∧ ((r.minutesPreparedBy = none ∨ r.minutesPreparedBy = some [] ∨
        r.minutesPreparedBy = some (("Not mentioned").data)) →
      ("\nMinutes Prepared By: Not mentioned\nDate Circulated: ").data
        <:+: generate_golf_club_minutes r now)
    ∧ ((r.circulation = none ∨ r.circulation = some [] ∨
        r.circulation = some (("Not mentioned").data)) →
      ("\nCirculation: Not mentioned\n\n________________________________________\nATTENDEES:\n").data
        <:+: generate_golf_club_minutes r now) := by
  refine ⟨?_, ?_, ?_, ?_⟩
  · intro h
    have hg : get r.purposeOfMeeting (("Not mentioned").data) = ("Not mentioned").data := by
      rcases h with h | h | h <;> rw [h] <;> decide
    rw [gen_decomp]
    apply infix_extendR
    have hrun := flat_run (bodySegs r now) 2 3
    rw [show ((bodySegs r now).drop 2).take 3
        = [("\nPurpose of Meeting: ").data
          , get r.purposeOfMeeting (("Not mentioned").data)
          , ("\nLocation of Meeting: ").data] from rfl] at hrun
    rw [hg] at hrun
    rw [show ([("\nPurpose of Meeting: ").data, ("Not mentioned").data
          , ("\nLocation of Meeting: ").data] : List Str).flatten
        = ("\nPurpose of Meeting: Not mentioned\nLocation of Meeting: ").data from by decide] at hrun
    exact hrun
  · intro h
    have hg : get r.nextMeetingDateTime (("Not mentioned").data) = ("Not mentioned").data := by
      rcases h with h | h | h <;> rw [h] <;> decide
    rw [gen_decomp]
    apply infix_extendR
    have hrun := flat_run (bodySegs r now) 8 3
    rw [show ((bodySegs r now).drop 8).take 3
        = [("\nDate / Time of Next Meeting: ").data
          , get r.nextMeetingDateTime (("Not mentioned").data)
          , ("\nMinutes Prepared By: ").data] from rfl] at hrun
    rw [hg] at hrun
    rw [show ([("\nDate / Time of Next Meeting: ").data, ("Not mentioned").data
          , ("\nMinutes Prepared By: ").data] : List Str).flatten
        = ("\nDate / Time of Next Meeting: Not mentioned\nMinutes Prepared By: ").data
        from by decide] at hrun
    exact hrun
  · intro h
    have hg : get r.minutesPreparedBy (("Not mentioned").data) = ("Not mentioned").data := by
      rcases h with h | h | h <;> rw [h] <;> decide
    rw [gen_decomp]
    apply infix_extendR
    have hrun := flat_run (bodySegs r now) 10 3
    rw [show ((bodySegs r now).drop 10).take 3
        = [("\nMinutes Prepared By: ").data
          , get r.minutesPreparedBy (("Not mentioned").data)
          , ("\nDate Circulated: ").data] from rfl] at hrun
    rw [hg] at hrun
    rw [show ([("\nMinutes Prepared By: ").data, ("Not mentioned").data
          , ("\nDate Circulated: ").data] : List Str).flatten
        = ("\nMinutes Prepared By: Not mentioned\nDate Circulated: ").data from by decide] at hrun
    exact hrun
  · intro h
    have hg : get r.circulation (("Not mentioned").data) = ("Not mentioned").data := by
      rcases h with h | h | h <;> rw [h] <;> decide
    rw [gen_decomp]
    apply infix_extendR
    have hrun := flat_run (bodySegs r now) 14 3
    rw [show ((bodySegs r now).drop 14).take 3
        = [("\nCirculation: ").data
          , get r.circulation (("Not mentioned").data)
          , ("\n\n________________________________________\nATTENDEES:\n").data] from rfl] at hrun
    rw [hg] at hrun
    rw [show ([("\nCirculation: ").data, ("Not mentioned").data
          , ("\n\n________________________________________\nATTENDEES:\n").data] : List Str).flatten
        = ("\nCirculation: Not mentioned\n\n________________________________________\nATTENDEES:\n").data
        from by decide] at hrun
    exact hrun

/-- C3 witness: the amended theorem applied to the empty record, with the
absence hypotheses discharged by the missing-key case. -/
theorem c3_witness :
    (("\nPurpose of Meeting: Not mentioned\nLocation of Meeting: ").data
        <:+: generate_golf_club_minutes emptyRec now0)
    ∧ (("\nCirculation: Not mentioned\n\n________________________________________\nATTENDEES:\n").data
        <:+: generate_golf_club_minutes emptyRec now0) := by
  have h := c3_amended emptyRec now0
  exact ⟨h.1 (Or.inl rfl), h.2.2.2 (Or.inl rfl)⟩

set_option maxRecDepth 100000 in
set_option maxHeartbeats 2000000 in
/-- C4: the claim asserts `""`, `"Not mentioned"`, `"NOT MENTIONED"` and a
missing key are interchangeable for scalar fields.  In the code the sentinel
comparison `val != "Not mentioned"` is case-sensitive: `"NOT MENTIONED"` is
treated as a present value and rendered verbatim, so the purpose field set to
`"NOT MENTIONED"` renders differently from the omitted key. -/
theorem c4_counterexample :
    (("Purpose of Meeting: NOT MENTIONED\n").data <:+: generate_golf_club_minutes rec4 now0)
    ∧ ¬ (("Purpose of Meeting: NOT MENTIONED\n").data <:+: generate_golf_club_minutes emptyRec now0)
    ∧ generate_golf_club_minutes rec4 now0 ≠ generate_golf_club_minutes emptyRec now0 := by
  refine ⟨?_, ?_, by decide⟩
  · rw [← hasRun_iff]; decide
  · rw [← hasRun_iff]; decide

/-- C4 (amended): for a scalar field, supplying `""`, the exact sentinel
`"Not mentioned"`, or omitting the key are interchangeable (all resolve to the
field's default); but a case variant such as `"NOT MENTIONED"` is treated as
present and rendered verbatim. -/
theorem c4_amended (d : Str) (r : StructuredRecord) (now : Now) :
    get (some []) d = get none d
    ∧ get (some (("Not mentioned").data)) d = get none d
    ∧ get (some (("NOT MENTIONED").data)) d = ("NOT MENTIONED").data
    ∧ generate_golf_club_minutes { r with purposeOfMeeting := some [] } now
        = generate_golf_club_minutes { r with purposeOfMeeting := none } now
    ∧ generate_golf_club_minutes { r with purposeOfMeeting := some (("Not mentioned").data) } now
        = generate_golf_club_minutes { r with purposeOfMeeting := none } now :=
  ⟨rfl, rfl, rfl, rfl, rfl⟩

/-- A single template segment of the body is an infix of the document. -/
theorem seg_in_doc (r : StructuredRecord) (now : Now) (k : Nat) (seg : Str)
    (h : ((bodySegs r now).drop k).take 1 = [seg]) :
    seg <:+: generate_golf_club_minutes r now := by
  rw [gen_decomp]
  apply infix_extendR
  have hrun := flat_run (bodySegs r now) k 1
  rw [h] at hrun
  simpa using hrun

/-- C5: for an absent field (missing, empty, or the exact sentinel), the
formatter substitutes the per-field default — the fixed committee name for the
title, the fixed venue "Lee Valley" for the location, the clock formatted as
`DD/MM/YYYY @ HH:MM` for the meeting date/time, and the clock date formatted
as `DD/MM/YYYY` for the circulation date; a present value is used verbatim. -/
theorem c5 (r : StructuredRecord) (now : Now) :
    ((r.titleOfMeeting = none ∨ r.titleOfMeeting = some [] ∨
        r.titleOfMeeting = some (("Not mentioned").data)) →
      ("Title of Meeting: Lee Valley Mens Club Committee Meeting\nPurpose of Meeting: ").data
        <+: generate_golf_club_minutes r now)
    ∧ ((r.locationOfMeeting = none ∨ r.locationOfMeeting = some [] ∨
        r.locationOfMeeting = some (("Not mentioned").data)) →
      ("\nLocation of Meeting: Lee Valley\nDate / Time of Meeting: ").data
        <:+: generate_golf_club_minutes r now)
    ∧ ((r.meetingDateTime = none ∨ r.meetingDateTime = some [] ∨
        r.meetingDateTime = some (("Not mentioned").data)) →
      (("\nDate / Time of Meeting: ").data ++ fmtDateTime now
          ++ ("\nDate / Time of Next Meeting: ").data)
        <:+: generate_golf_club_minutes r now)
    ∧ ((r.dateCirculated = none ∨ r.dateCirculated = some [] ∨
        r.dateCirculated = some (("Not mentioned").data)) →
      (("\nDate Circulated: ").data ++ fmtDate now ++ ("\nCirculation: ").data)
        <:+: generate_golf_club_minutes r now)
    ∧ (∀ s, s ≠ [] → s ≠ ("Not mentioned").data → r.titleOfMeeting = some s →
      (("Title of Meeting: ").data ++ s ++ ("\nPurpose of Meeting: ").data)
        <+: generate_golf_club_minutes r now)
    ∧ (∀ s, s ≠ [] → s ≠ ("Not mentioned").data → r.locationOfMeeting = some s →
      (("\nLocation of Meeting: ").data ++ s ++ ("\nDate / Time of Meeting: ").data)
        <:+: generate_golf_club_minutes r now)
    ∧ (∀ s, s ≠ [] → s ≠ ("Not mentioned").data → r.meetingDateTime = some s →
      (("\nDate / Time of Meeting: ").data ++ s ++ ("\nDate / Time of Next Meeting: ").data)
        <:+: generate_golf_club_minutes r now)
    ∧ (∀ s, s ≠ [] → s ≠ ("Not mentioned").data → r.dateCirculated = some s →
      (("\nDate Circulated: ").data ++ s ++ ("\nCirculation: ").data)
        <:+: generate_golf_club_minutes r now) := by
  refine ⟨?_, ?_, ?_, ?_, ?_, ?_, ?_, ?_⟩
  · intro h
    have hg : get r.titleOfMeeting (("Lee Valley Mens Club Committee Meeting").data)
        = ("Lee Valley Mens Club Committee Meeting").data := by
      rcases h with h | h | h <;> rw [h] <;> rfl
    rw [gen_decomp]
    have hpre := flat_run_head (bodySegs r now) 3 (rstrip (format_items r.captainsClosingComments))
    rw [show (bodySegs r now).take 3
        = [("Title of Meeting: ").data
          , get r.titleOfMeeting (("Lee Valley Mens Club Committee Meeting").data)
          , ("\nPurpose of Meeting: ").data] from rfl] at hpre
    rw [hg] at hpre
    rw [show ([("Title of Meeting: ").data, ("Lee Valley Mens Club Committee Meeting").data
          , ("\nPurpose of Meeting: ").data] : List Str).flatten
        = ("Title of Meeting: Lee Valley Mens Club Committee Meeting\nPurpose of Meeting: ").data
        from by decide] at hpre
    exact hpre
  · intro h
    have hg : get r.locationOfMeeting (("Lee Valley").data) = ("Lee Valley").data := by
      rcases h with h | h | h <;> rw [h] <;> rfl
    rw [gen_decomp]
    apply infix_extendR
    have hrun := flat_run (bodySegs r now) 4 3
    rw [show ((bodySegs r now).drop 4).take 3
        = [("\nLocation of Meeting: ").data
          , get r.locationOfMeeting (("Lee Valley").data)
          , ("\nDate / Time of Meeting: ").data] from rfl] at hrun
    rw [hg] at hrun
    rw [show ([("\nLocation of Meeting: ").data, ("Lee Valley").data
          , ("\nDate / Time of Meeting: ").data] : List Str).flatten
        = ("\nLocation of Meeting: Lee Valley\nDate / Time of Meeting: ").data
        from by decide] at hrun
    exact hrun
  · intro h
    have hg : get r.meetingDateTime (fmtDateTime now) = fmtDateTime now := by
      rcases h with h | h | h <;> rw [h] <;> rfl
    rw [gen_decomp]
    apply infix_extendR
    have hrun := flat_run (bodySegs r now) 6 3
    rw [show ((bodySegs r now).drop 6).take 3
        = [("\nDate / Time of Meeting: ").data
          , get r.meetingDateTime (fmtDateTime now)
          , ("\nDate / Time of Next Meeting: ").data] from rfl] at hrun
    rw [hg] at hrun
    rw [show ([("\nDate / Time of Meeting: ").data, fmtDateTime now
          , ("\nDate / Time of Next Meeting: ").data] : List Str).flatten
        = (("\nDate / Time of Meeting: ").data ++ fmtDateTime now
            ++ ("\nDate / Time of Next Meeting: ").data)
        from by simp [List.append_assoc]] at hrun
    exact hrun
  · intro h
    have hg : get r.dateCirculated (fmtDate now) = fmtDate now := by
      rcases h with h | h | h <;> rw [h] <;> rfl
    rw [gen_decomp]
    apply infix_extendR
    have hrun := flat_run (bodySegs r now) 12 3
    rw [show ((bodySegs r now).drop 12).take 3
        = [("\nDate Circulated: ").data
          , get r.dateCirculated (fmtDate now)
          , ("\nCirculation: ").data] from rfl] at hrun
    rw [hg] at hrun
    rw [show ([("\nDate Circulated: ").data, fmtDate now
          , ("\nCirculation: ").data] : List Str).flatten
        = (("\nDate Circulated: ").data ++ fmtDate now ++ ("\nCirculation: ").data)
        from by simp [List.append_assoc]] at hrun
    exact hrun
  · intro s hne hsen hs
    have hg : get r.titleOfMeeting (("Lee Valley Mens Club Committee Meeting").data) = s := by
      rw [hs]
      show (if s ≠ [] ∧ s ≠ ("Not mentioned").data then s else _) = s
      rw [if_pos ⟨hne, hsen⟩]
    rw [gen_decomp]
    have hpre := flat_run_head (bodySegs r now) 3 (rstrip (format_items r.captainsClosingComments))
    rw [show (bodySegs r now).take 3
        = [("Title of Meeting: ").data
          , get r.titleOfMeeting (("Lee Valley Mens Club Committee Meeting").data)
          , ("\nPurpose of Meeting: ").data] from rfl] at hpre
    rw [hg] at hpre
    rw [show ([("Title of Meeting: ").data, s, ("\nPurpose of Meeting: ").data] : List Str).flatten
        = (("Title of Meeting: ").data ++ s ++ ("\nPurpose of Meeting: ").data)
        from by simp [List.append_assoc]] at hpre
    exact hpre
  · intro s hne hsen hs
    have hg : get r.locationOfMeeting (("Lee Valley").data) = s := by
      rw [hs]
      show (if s ≠ [] ∧ s ≠ ("Not mentioned").data then s else _) = s
      rw [if_pos ⟨hne, hsen⟩]
    rw [gen_decomp]
    apply infix_extendR
    have hrun := flat_run (bodySegs r now) 4 3
    rw [show ((bodySegs r now).drop 4).take 3
        = [("\nLocation of Meeting: ").data
          , get r.locationOfMeeting (("Lee Valley").data)
          , ("\nDate / Time of Meeting: ").data] from rfl] at hrun
    rw [hg] at hrun
    rw [show ([("\nLocation of Meeting: ").data, s, ("\nDate / Time of Meeting: ").data] : List Str).flatten
        = (("\nLocation of Meeting: ").data ++ s ++ ("\nDate / Time of Meeting: ").data)
        from by simp [List.append_assoc]] at hrun
    exact hrun
  · intro s hne hsen hs
    have hg : get r.meetingDateTime (fmtDateTime now) = s := by
      rw [hs]
      show (if s ≠ [] ∧ s ≠ ("Not mentioned").data then s else _) = s
      rw [if_pos ⟨hne, hsen⟩]
    rw [gen_decomp]
    apply infix_extendR
    have hrun := flat_run (bodySegs r now) 6 3
    rw [show ((bodySegs r now).drop 6).take 3
        = [("\nDate / Time of Meeting: ").data
          , get r.meetingDateTime (fmtDateTime now)
          , ("\nDate / Time of Next Meeting: ").data] from rfl] at hrun
    rw [hg] at hrun
    rw [show ([("\nDate / Time of Meeting: ").data, s
          , ("\nDate / Time of Next Meeting: ").data] : List Str).flatten
        = (("\nDate / Time of Meeting: ").data ++ s ++ ("\nDate / Time of Next Meeting: ").data)
        from by simp [List.append_assoc]] at hrun
    exact hrun
  · intro s hne hsen hs
    have hg : get r.dateCirculated (fmtDate now) = s := by
      rw [hs]
      show (if s ≠ [] ∧ s ≠ ("Not mentioned").data then s else _) = s
      rw [if_pos ⟨hne, hsen⟩]
    rw [gen_decomp]
    apply infix_extendR
    have hrun := flat_run (bodySegs r now) 12 3
    rw [show ((bodySegs r now).drop 12).take 3
        = [("\nDate Circulated: ").data
          , get r.dateCirculated (fmtDate now)
          , ("\nCirculation: ").data] from rfl] at hrun
    rw [hg] at hrun
    rw [show ([("\nDate Circulated: ").data, s, ("\nCirculation: ").data] : List Str).flatten
        = (("\nDate Circulated: ").data ++ s ++ ("\nCirculation: ").data)
        from by simp [List.append_assoc]] at hrun
    exact hrun

/-- C5 witness: the defaults at the empty record, and verbatim use of a
present title at `rec5`, both under the concrete clock `now0`. -/
theorem c5_witness :
    (("Title of Meeting: Lee Valley Mens Club Committee Meeting\nPurpose of Meeting: ").data
        <+: generate_golf_club_minutes emptyRec now0)
    ∧ ((("\nDate / Time of Meeting: ").data ++ fmtDateTime now0
          ++ ("\nDate / Time of Next Meeting: ").data)
        <:+: generate_golf_club_minutes emptyRec now0)
    ∧ ((("Title of Meeting: ").data ++ ("March Committee Catch-up").data
          ++ ("\nPurpose of Meeting: ").data)
        <+: generate_golf_club_minutes rec5 now0) := by
  have h1 := c5 emptyRec now0
  have h2 := c5 rec5 now0
  exact ⟨h1.1 (Or.inl rfl), h1.2.2.1 (Or.inl rfl),
    h2.2.2.2.2.1 (("March Committee Catch-up").data) (by decide) (by decide) rfl⟩

set_option maxRecDepth 100000 in
set_option maxHeartbeats 2000000 in
/-- C6: the formatter is total over records — in this embedding it is a total
function by construction — and for every record (the empty one included) the
output contains the ten pairwise-distinct numbered section labels, the
attendees and apologies headers, the header block and the banner, with no
leading or trailing whitespace (hence no leading/trailing blank lines). -/
theorem c6 (r : StructuredRecord) (now : Now) :
    sectionLabels.length = 10
    ∧ sectionLabels.Nodup
    ∧ (∀ lab ∈ sectionLabels, lab <:+: generate_golf_club_minutes r now)
    ∧ (("ATTENDEES:\n").data <:+: generate_golf_club_minutes r now)
    ∧ (("APOLOGIES:\n").data <:+: generate_golf_club_minutes r now)
    ∧ (("MEETING MINUTES & ACTIONS\n").data <:+: generate_golf_club_minutes r now)
    ∧ (("Title of Meeting: ").data <+: generate_golf_club_minutes r now)
    ∧ startsWs (generate_golf_club_minutes r now) = false
    ∧ endsWs (generate_golf_club_minutes r now) = false := by
  refine ⟨rfl, by decide, ?_, ?_, ?_, ?_, ?_, ?_, ?_⟩
  · intro lab hlab
    fin_cases hlab
    · exact List.IsInfix.trans (by decide)
        (seg_in_doc r now 20 (("\n________________________________________\n\nMEETING MINUTES & ACTIONS\n________________________________________\n\n1. Training (First Aid, Programmes, etc.)\n").data) rfl)
    · exact List.IsInfix.trans (by decide)
        (seg_in_doc r now 22 (("\n________________________________________\n2. Health and Safety\n").data) rfl)
    · exact List.IsInfix.trans (by decide)
        (seg_in_doc r now 24 (("\n________________________________________\n3. Finance (Status, Projections)\n").data) rfl)
    · exact List.IsInfix.trans (by decide)
        (seg_in_doc r now 26 (("\n________________________________________\n4. Issues, Risk, Discipline\n").data) rfl)
    · exact List.IsInfix.trans (by decide)
        (seg_in_doc r now 28 (("\n________________________________________\n5. Teams (Purcell, Bruen, etc.)\n").data) rfl)
    · exact List.IsInfix.trans (by decide)
        (seg_in_doc r now 30 (("\n________________________________________\n6. Projects (Defib, Simulator, 5 Year Vision)\n").data) rfl)
    · exact List.IsInfix.trans (by decide)
        (seg_in_doc r now 32 (("\n________________________________________\n7. Competitions (Weekly, Matchplays)\n").data) rfl)
    · exact List.IsInfix.trans (by decide)
        (seg_in_doc r now 34 (("\n________________________________________\n8. Comments\n").data) rfl)
    · exact List.IsInfix.trans (by decide)
        (seg_in_doc r now 36 (("\n________________________________________\n9. Any Other Business (AOB)\n").data) rfl)
    · exact List.IsInfix.trans (by decide)
        (seg_in_doc r now 38 (("\n________________________________________\n10. Captain\x27s Closing Comments\n").data) rfl)
  · exact List.IsInfix.trans (by decide)
      (seg_in_doc r now 16 (("\n\n________________________________________\nATTENDEES:\n").data) rfl)
  · exact List.IsInfix.trans (by decide)
      (seg_in_doc r now 18 (("\n________________________________________\nAPOLOGIES:\n").data) rfl)
  · exact List.IsInfix.trans (by decide)
      (seg_in_doc r now 20 (("\n________________________________________\n\nMEETING MINUTES & ACTIONS\n________________________________________\n\n1. Training (First Aid, Programmes, etc.)\n").data) rfl)
  · rw [gen_decomp]
    have hpre := flat_run_head (bodySegs r now) 1 (rstrip (format_items r.captainsClosingComments))
    rw [show (bodySegs r now).take 1 = [("Title of Meeting: ").data] from rfl] at hpre
    simpa using hpre
  · rw [gen_decomp]
    simp only [bodySegs, List.flatten_cons, List.cons_append]
    show isPySpace 'T' = false
    decide
  · rw [gen_decomp]
    unfold endsWs
    rw [List.reverse_append]
    rw [show (rstrip (format_items r.captainsClosingComments)).reverse
        = List.dropWhile isPySpace (format_items r.captainsClosingComments).reverse from by
      unfold rstrip; rw [List.reverse_reverse]]
    have hne : List.dropWhile isPySpace (format_items r.captainsClosingComments).reverse ≠ [] := by
      apply dropWhile_ne_nil_of_exists
      rcases format_items_nonws r.captainsClosingComments with ⟨c, hc, hpc⟩
      exact ⟨c, by simpa using hc, hpc⟩
    rcases hD : List.dropWhile isPySpace (format_items r.captainsClosingComments).reverse with _ | ⟨c, t⟩
    · exact absurd hD hne
    · simp only [List.cons_append]
      show isPySpace c = false
      exact dropWhile_head_false isPySpace _ _ _ hD

/-- C6 witness: the shape facts instantiated at the empty record and the
concrete clock, with the label-membership hypothesis discharged concretely. -/
theorem c6_witness :
    (("10. Captain\x27s Closing Comments").data <:+: generate_golf_club_minutes emptyRec now0)
    ∧ (("ATTENDEES:\n").data <:+: generate_golf_club_minutes emptyRec now0)
    ∧ startsWs (generate_golf_club_minutes emptyRec now0) = false := by
  have h := c6 emptyRec now0
  exact ⟨h.2.2.1 (("10. Captain\x27s Closing Comments").data) (by decide),
    h.2.2.2.1, h.2.2.2.2.2.2.2.1⟩

/-- If a scalar value is present (non-empty, non-sentinel), `get` ignores the
default entirely. -/
theorem get_of_present (v : Option Str) (d₁ d₂ : Str) (h : present v = true) :
    get v d₁ = get v d₂ := by
  cases v with
  | none => cases h
  | some s =>
      have h1 : s ≠ [] := by
        intro e; subst e; simp [present] at h
      have h2 : s ≠ ("Not mentioned").data := by
        intro e; rw [e] at h; simp [present] at h
      show (if s ≠ [] ∧ s ≠ ("Not mentioned").data then s else d₁)
          = (if s ≠ [] ∧ s ≠ ("Not mentioned").data then s else d₂)
      rw [if_pos ⟨h1, h2⟩, if_pos ⟨h1, h2⟩]

/-- C9: the formatter is deterministic up to the wall clock, and the clock
only enters through the defaults of the meeting date/time and circulation
date: when both fields are present in the record, the output is identical for
any two clock readings. -/
theorem c9 (r : StructuredRecord) (now1 now2 : Now)
    (h1 : present r.meetingDateTime = true) (h2 : present r.dateCirculated = true) :
    generate_golf_club_minutes r now1 = generate_golf_club_minutes r now2 := by
  unfold generate_golf_club_minutes templ
  rw [get_of_present r.meetingDateTime (fmtDateTime now1) (fmtDateTime now2) h1]
  rw [get_of_present r.dateCirculated (fmtDate now1) (fmtDate now2) h2]

/-- C9 witness: the record `rec9` carries both clock-defaulted fields, so two
different clocks produce byte-identical documents. -/
theorem c9_witness :
    generate_golf_club_minutes rec9 now0 = generate_golf_club_minutes rec9 now1 :=
  c9 rec9 now0 now1 (by decide) (by decide)

-- extractor sanity: the round trip of the spec's example text
example : extractStructured (("Some preamble ```json\n\x7b\"titleOfMeeting\": \"Monthly Meeting\"\x7d\n``` trailing").data)
    = .success (.obj [((("titleOfMeeting").data), .str (("Monthly Meeting").data))]) := rfl

/-- C7: the claim asserts the fenced block is preferred over the bare-brace
search on any text containing both.  `re.search` picks the leftmost matching
position, so a bare `{` occurring before the fence wins: on
`{"a": 1} ```json\n{"b": 2}\n``` `` the candidate is the greedy brace capture
from the first `{` to the last `}`, not the fenced interior `{"b": 2}`. -/
theorem c7_counterexample :
    json_text_match (("\x7b\"a\": 1\x7d ```json\n\x7b\"b\": 2\x7d\n```").data)
        = some (none, some (("\x7b\"a\": 1\x7d ```json\n\x7b\"b\": 2\x7d").data))
    ∧ candidateOf (extractStructured (("\x7b\"a\": 1\x7d ```json\n\x7b\"b\": 2\x7d\n```").data))
        = some (("\x7b\"a\": 1\x7d ```json\n\x7b\"b\": 2\x7d").data)
    ∧ candidateOf (extractStructured (("\x7b\"a\": 1\x7d ```json\n\x7b\"b\": 2\x7d\n```").data))
        ≠ some (("\x7b\"b\": 2\x7d").data) := by
  refine ⟨by decide, ?_, ?_⟩
  · rfl
  · intro h
    cases h

/-- C7 (amended): the selection scans positions left to right and prefers the
fenced-json branch only at equal positions: a fence match at the current
position wins outright; otherwise a bare-brace match at the current position
is taken even if a fenced block occurs later; when neither branch matches
here — in particular on any whitespace character — the scan moves right. -/
theorem c7_amended (c : Char) (cs : Str) :
    (∀ g, tryFence (c :: cs) = some g →
        json_text_match (c :: cs) = some (some g, none))
    ∧ (∀ g, tryFence (c :: cs) = none → tryBrace (c :: cs) = some g →
        json_text_match (c :: cs) = some (none, some g))
    ∧ (tryFence (c :: cs) = none → tryBrace (c :: cs) = none →
        json_text_match (c :: cs) = json_text_match cs)
    ∧ (∀ pre rest : Str, (∀ x ∈ pre, isPySpace x = true) →
        json_text_match (pre ++ rest) = json_text_match rest) := by
  have hstep : ∀ (d : Char) (ds : Str), json_text_match (d :: ds)
      = (match tryFence (d :: ds) with
        | some g1 => some (some g1, none)
        | none =>
            match tryBrace (d :: ds) with
            | some g2 => some (none, some g2)
            | none => json_text_match ds) := fun _ _ => rfl
  refine ⟨?_, ?_, ?_, ?_⟩
  · intro g hg
    rw [hstep, hg]
  · intro g hf hg
    rw [hstep, hf, hg]
  · intro hf hb
    rw [hstep, hf, hb]
  · intro pre
    induction pre with
    | nil => intro rest _; rfl
    | cons x pre ih =>
        intro rest hws
        have hx : isPySpace x = true := hws x (List.mem_cons_self x pre)
        have hxs : ∀ y ∈ pre, isPySpace y = true :=
          fun y hy => hws y (List.mem_cons_of_mem x hy)
        have hf : tryFence (x :: (pre ++ rest)) = none := by
          unfold tryFence
          rw [if_neg]
          intro hsw
          rw [show startsWith (("```json").data) (x :: (pre ++ rest))
              = (('`' == x) && startsWith (("``json").data) (pre ++ rest)) from rfl] at hsw
          rw [Bool.and_eq_true, beq_iff_eq] at hsw
          rw [← hsw.1] at hx
          exact absurd hx (by decide)
        have hb : tryBrace (x :: (pre ++ rest)) = none := by
          have hne : x ≠ '\x7b' := by
            intro e; rw [e] at hx; exact absurd hx (by decide)
          unfold tryBrace
          split
          · next heq => injection heq with h1 h2; exact absurd h1 hne
          · rfl
        rw [show (x :: pre) ++ rest = x :: (pre ++ rest) from rfl]
        rw [hstep, hf, hb]
        exact ih rest hxs

/-- C7 witness: the amended theorem at two concrete texts — a fence at the
scan position wins; a bare brace at the scan position wins over a later
fence. -/
theorem c7_witness :
    json_text_match (("```json\n\x7b\"b\": 2\x7d\n```").data)
        = some (some (("\x7b\"b\": 2\x7d").data), none)
    ∧ json_text_match (("\x7b\"a\": 1\x7d and ```json x```").data)
        = some (none, some (("\x7b\"a\": 1\x7d").data)) := by
  constructor
  · exact (c7_amended '`' (("``json\n\x7b\"b\": 2\x7d\n```").data)).1
      (("\x7b\"b\": 2\x7d").data) (by decide)
  · exact (c7_amended '\x7b' (("\"a\": 1\x7d and ```json x```").data)).2.1
      (("\x7b\"a\": 1\x7d").data) (by decide) (by decide)

/-- Unfolding of the extraction block once the regex has produced groups. -/
theorem extract_eq_of_match (text : Str) (g1 g2 : Option Str)
    (hm : json_text_match text = some (g1, g2)) :
    extractStructured text = (match orGroup g1 g2 with
      | none => Outcome.pyNoneError
      | some s =>
          match json_loads (pyStrip s) with
          | .ok v => Outcome.success v
          | .error e => Outcome.malformed e (pyStrip s)) := by
  unfold extractStructured
  rw [hm]

/-- C8: the extractor reports the no-structured-data error (retaining the raw
text) exactly when the regex finds no candidate; and when the group fallback
yields a candidate string whose stripped form fails to parse, it reports the
malformed-data error carrying the parse error and that exact stripped
candidate; a fallback with no string at all is the crash path, so neither
failure produces a record. -/
theorem c8 (text : Str) :
    (extractStructured text = .noStructuredData text ↔ json_text_match text = none)
    ∧ (∀ g1 g2 s e, json_text_match text = some (g1, g2) → orGroup g1 g2 = some s →
        json_loads (pyStrip s) = .error e →
        extractStructured text = .malformed e (pyStrip s))
    ∧ (∀ g1 g2, json_text_match text = some (g1, g2) → orGroup g1 g2 = none →
        extractStructured text = .pyNoneError) := by
  refine ⟨?_, ?_, ?_⟩
  · constructor
    · intro h
      rcases hm : json_text_match text with _ | ⟨g1, g2⟩
      · rfl
      · exfalso
        rcases ho : orGroup g1 g2 with _ | s
        · have hred : extractStructured text = Outcome.pyNoneError := by
            rw [extract_eq_of_match text g1 g2 hm, ho]
          rw [hred] at h
          exact Outcome.noConfusion h
        · rcases hl : json_loads (pyStrip s) with e | v
          · have hred : extractStructured text = Outcome.malformed e (pyStrip s) := by
              rw [extract_eq_of_match text g1 g2 hm, ho]
              show (match json_loads (pyStrip s) with
                | .ok v => Outcome.success v
                | .error e => Outcome.malformed e (pyStrip s)) = _
              rw [hl]
            rw [hred] at h
            exact Outcome.noConfusion h
          · have hred : extractStructured text = Outcome.success v := by
              rw [extract_eq_of_match text g1 g2 hm, ho]
              show (match json_loads (pyStrip s) with
                | .ok v => Outcome.success v
                | .error e => Outcome.malformed e (pyStrip s)) = _
              rw [hl]
            rw [hred] at h
            exact Outcome.noConfusion h
    · intro hm
      unfold extractStructured
      rw [hm]
  · intro g1 g2 s e hm ho hl
    rw [extract_eq_of_match text g1 g2 hm, ho]
    show (match json_loads (pyStrip s) with
      | .ok v => Outcome.success v
      | .error e => Outcome.malformed e (pyStrip s)) = _
    rw [hl]
  · intro g1 g2 hm ho
    rw [extract_eq_of_match text g1 g2 hm, ho]

/-- C8 witness: a text with no braces reports no structured data; an invalid
fenced object reports malformed data carrying the exact candidate. -/
theorem c8_witness :
    extractStructured (("no structured data here at all").data)
        = .noStructuredData (("no structured data here at all").data)
    ∧ extractStructured (("```json\n\x7btitleOfMeeting: \x7d\n```").data)
        = .malformed (("Expecting property name enclosed in double quotes").data)
            (("\x7btitleOfMeeting: \x7d").data) := by
  constructor
  · exact (c8 (("no structured data here at all").data)).1.mpr (by decide)
  · exact (c8 (("```json\n\x7btitleOfMeeting: \x7d\n```").data)).2.1
      (some (("\x7btitleOfMeeting: \x7d").data)) none
      (("\x7btitleOfMeeting: \x7d").data)
      (("Expecting property name enclosed in double quotes").data)
      (by decide) (by decide) (by rfl)

/-- C10: on a json-fenced block with an empty (or all-whitespace) interior,
the regex matches with an empty first capture group, `group(1) or group(2)`
falls through to the missing second group, and the extraction block reaches
`None.strip()` — the unhandled-exception outcome — instead of a record or
either specified error. -/
theorem c10 :
    json_text_match (("```json\n```").data) = some (some [], none)
    ∧ orGroup (some []) none = none
    ∧ extractStructured (("```json\n```").data) = .pyNoneError := by
  refine ⟨by decide, by decide, ?_⟩
  rfl
